import Mathlib

/-!
Shallow embedding of the Mindful-chatbot-backend repository
(src/app.py, src/app_backend_only.py, src/enhanced_features.py).

Conventions of the embedding:
* Python strings are Lean `String`s; `word in text` (substring test) is
  `containsSub text word`; `str.lower()` is `pyLower`;
  `str.strip()` is `pyStrip`; `str.title()` is `pyTitle`.
* Timestamps (`datetime.now()`) are explicit `Int` parameters, measured in
  seconds; a `timedelta(hours=h)` is the integer `h * 3600`.
* `random.choice(lst)` is modelled by an arbitrary draw index `k : Nat`
  with `pyChoice k lst = lst[k % len(lst)]`; theorems quantify over `k`.
* Python dicts (which preserve insertion order) are association lists
  `List (String × α)`: assignment is `aset` (replace in place, or append a
  new key at the end), in-place mutation of an existing entry is `aupdate`.
* A Python `set` of strings is modelled as an insertion-ordered
  duplicate-free list (`setAdd`); no claim observes the iteration order of
  a set.
* Reading a name that the module never bound (`user_data` in src/app.py is
  used but never initialised) raises `PyError.nameError`; fallible code
  returns `Except PyError α`.
-/

namespace Mindful

/-! ## String helpers (Python semantics) -/

/-- Python `str.lower()` (the embedding keeps strings as character lists so
that the kernel can evaluate them). -/
def pyLower (s : String) : String := String.mk (s.data.map Char.toLower)

/-- Python `str.strip()`: drop leading and trailing whitespace. -/
def pyStrip (s : String) : String :=
  String.mk (((s.data.dropWhile Char.isWhitespace).reverse.dropWhile
    Char.isWhitespace).reverse)

/-- Boolean list-isPrefixOf on characters. -/
def isPrefixB : List Char → List Char → Bool
  | [], _ => true
  | _ :: _, [] => false
  | a :: as, b :: bs => a == b && isPrefixB as bs

/-- Boolean substring test on characters (`needle` occurs inside the list). -/
def isInfixB (needle : List Char) : List Char → Bool
  | [] => needle.isEmpty
  | c :: cs => isPrefixB needle (c :: cs) || isInfixB needle cs

/-- Python `needle in hay` for strings (substring containment). -/
def containsSub (hay needle : String) : Bool := isInfixB needle.data hay.data

/-- Python `any(w in text for w in ws)`. -/
def anyContains (text : String) (ws : List String) : Bool :=
  ws.any (fun w => containsSub text w)

/-- Python `sum(1 for word in ws if word in text)`: the number of dictionary
words occurring (as substrings) in `text`. -/
def countContained (ws : List String) (text : String) : Nat :=
  (ws.filter (fun w => containsSub text w)).length

/-- Python `random.choice(lst)` with the random draw made explicit: for a
non-empty list this is `lst[k % len(lst)]`, always an element of the list. -/
def pyChoice (k : Nat) (l : List String) : String := l.getD (k % l.length) ""

/-- A character of Python's regex class `\w` (ASCII fragment). -/
def isWordChar (c : Char) : Bool := c.isAlphanum || c == '_'

/-- If `lit` is a prefix of `s`, the remainder of `s` past it. -/
def litRest : List Char → List Char → Option (List Char)
  | [], s => some s
  | _ :: _, [] => none
  | a :: as, b :: bs => if a = b then litRest as bs else none

/-- Python `re.search(lit + r"(\w+)", s)`: scan left to right for the first
position where the literal `lit` matches and is followed by at least one
word character; the captured group is the maximal run of word characters. -/
def reCaptureAfter (lit : List Char) : List Char → Option (List Char)
  | [] => none
  | c :: cs =>
    match litRest lit (c :: cs) with
    | some rest =>
      let w := rest.takeWhile isWordChar
      if w.isEmpty then reCaptureAfter lit cs else some w
    | none => reCaptureAfter lit cs

/-- Python `re.search(r"my (?:favorite|fav) color is (\w+)", s)`. -/
def reCaptureColor : List Char → Option (List Char)
  | [] => none
  | c :: cs =>
    match litRest "my favorite color is ".data (c :: cs) with
    | some rest =>
      let w := rest.takeWhile isWordChar
      if w.isEmpty then reCaptureColor cs else some w
    | none =>
      match litRest "my fav color is ".data (c :: cs) with
      | some rest =>
        let w := rest.takeWhile isWordChar
        if w.isEmpty then reCaptureColor cs else some w
      | none => reCaptureColor cs

/-- Python `str.title()` (ASCII fragment): upper-case a letter that follows a
non-letter, lower-case a letter that follows a letter. -/
def pyTitleAux : Bool → List Char → List Char
  | _, [] => []
  | prevAlpha, c :: cs =>
    (if c.isAlpha then (if prevAlpha then c.toLower else c.toUpper) else c)
      :: pyTitleAux c.isAlpha cs

def pyTitle (s : String) : String := String.mk (pyTitleAux false s.data)

/-- Python `", ".join(l)`. -/
def joinComma : List String → String
  | [] => ""
  | [x] => x
  | x :: y :: t => x ++ ", " ++ joinComma (y :: t)

/-! ## Association lists: Python dicts (insertion ordered, unique keys) -/

/-- Dict lookup: the value at the first matching key. -/
def alookup (l : List (String × α)) (k : String) : Option α :=
  match l with
  | [] => none
  | (k', v) :: t => if k' = k then some v else alookup t k

/-- Dict assignment `d[k] = v`: replace in place, or append a new key. -/
def aset : List (String × α) → String → α → List (String × α)
  | [], k, v => [(k, v)]
  | (k', v') :: t, k, v => if k' = k then (k, v) :: t else (k', v') :: aset t k v

/-- In-place mutation of the entry at `k` (no-op when the key is absent). -/
def aupdate : List (String × α) → String → (α → α) → List (String × α)
  | [], _, _ => []
  | (k', v') :: t, k, f => if k' = k then (k', f v') :: t else (k', v') :: aupdate t k f

/-- Python `set.add` on an insertion-ordered duplicate-free list. -/
def setAdd (s : List String) (x : String) : List String :=
  if x ∈ s then s else s ++ [x]

/-! ## SentimentAnalyzer (src/enhanced_features.py, lines 257-280) -/

def positiveWordsEF : List String :=
  ["good", "great", "awesome", "amazing", "wonderful", "fantastic", "love",
   "like", "happy", "excited"]

def negativeWordsEF : List String :=
  ["bad", "terrible", "awful", "hate", "sad", "angry", "frustrated",
   "disappointed", "upset"]

def questionWords : List String :=
  ["what", "how", "why", "when", "where", "who", "which"]

/-- `SentimentAnalyzer.analyze`. -/
def sentimentAnalyze (text : String) : String :=
  let tl := pyLower text
  let positiveCount := countContained positiveWordsEF tl
  let negativeCount := countContained negativeWordsEF tl
  let hasQuestion := anyContains tl questionWords
  if negativeCount > positiveCount then "negative"
  else if positiveCount > negativeCount then "positive"
  else if hasQuestion then "questioning"
  else "neutral"

/-! ## analyze_sentiment (src/app.py, lines 453-466) -/

def positiveWordsApp : List String :=
  ["happy", "good", "great", "awesome", "love", "like", "wonderful"]

def negativeWordsApp : List String :=
  ["sad", "bad", "awful", "hate", "dislike", "terrible", "upset"]

/-- `analyze_sentiment` of src/app.py. -/
def analyzeSentimentApp (message : String) : String :=
  let ml := pyLower message
  let positiveCount := countContained positiveWordsApp ml
  let negativeCount := countContained negativeWordsApp ml
  if positiveCount > negativeCount then "positive"
  else if negativeCount > positiveCount then "negative"
  else "neutral"

/-! ## SimpleChatbot.analyze_sentiment (src/app_backend_only.py, lines 70-85) -/

def positiveWordsBk : List String :=
  ["good", "great", "excellent", "happy", "love", "wonderful", "amazing"]

def negativeWordsBk : List String :=
  ["bad", "terrible", "sad", "hate", "awful", "horrible", "angry"]

def analyzeSentimentBk (text : String) : String :=
  let tl := pyLower text
  let positiveCount := countContained positiveWordsBk tl
  let negativeCount := countContained negativeWordsBk tl
  if positiveCount > negativeCount then "positive"
  else if negativeCount > positiveCount then "negative"
  else "neutral"

/-! ## EmpathyEngine (src/enhanced_features.py, lines 282-309) -/

/-- The `empathetic_responses` dict: sentiment label to its list of openers. -/
def empatheticResponses (sentiment : String) : Option (List String) :=
  if sentiment = "negative" then
    some ["I'm sorry to hear that. I'm here to help if you'd like to talk about it.",
          "That sounds challenging. Would you like to share more about what's bothering you?",
          "I understand that might be frustrating. How can I assist you?"]
  else if sentiment = "positive" then
    some ["That's wonderful to hear! I'm glad you're feeling good.",
          "It sounds like things are going well for you! That's great.",
          "I'm happy to hear that! What's making your day so good?"]
  else if sentiment = "questioning" then
    some ["That's a great question! Let me help you with that.",
          "I'd be happy to help you understand that better.",
          "Interesting question! Let me think about the best way to explain that."]
  else none

/-- `EmpathyEngine.get_empathetic_prefix`: a random choice from the matching
list of openers, the empty string for a label outside the dict. -/
def getEmpatheticOpener (k : Nat) (sentiment : String) : String :=
  match empatheticResponses sentiment with
  | some l => pyChoice k l
  | none => ""

/-- The caller in the `chat` handler of src/app.py, lines 299-301:
`if empathy_prefix and sentiment in ['negative', 'positive']` prepend it. -/
def applyEmpathyOpener (opener sentiment botResponse : String) : String :=
  if opener != "" && (sentiment == "negative" || sentiment == "positive") then
    opener ++ " " ++ botResponse
  else botResponse

/-! ## EnhancedMemoryManager (src/enhanced_features.py, lines 17-255),
in-memory mode (`self.client = None`): `self.sessions` is a dict from
session id to the session dict. -/

/-- One entry of a session's `history` list. -/
structure Exchange where
  timestamp : Int
  user : String
  bot : String
  sentiment : Option String
deriving DecidableEq

/-- The per-session dict created in `get_session`. -/
structure SessionData where
  history : List Exchange
  createdAt : Int
  lastActive : Int
  messageCount : Nat
  userInfo : List (String × String)
  conversationTopics : List String
  sentimentHistory : List String
deriving DecidableEq

structure MemoryManager where
  sessions : List (String × SessionData)
  maxSessions : Nat
  sessionTimeout : Int
deriving DecidableEq

/-- The fresh session dict built on first reference. -/
def freshSession (now : Int) : SessionData :=
  { history := [], createdAt := now, lastActive := now, messageCount := 0,
    userInfo := [], conversationTopics := [], sentimentHistory := [] }

/-- The manager constructed in src/app.py lines 250-254:
`max_sessions=1000, session_timeout_hours=24` (in seconds). -/
def appMemoryManager : MemoryManager :=
  { sessions := [], maxSessions := 1000, sessionTimeout := 24 * 3600 }

/-- Stable insertion of an entry into a list sorted by ascending
`last_active`, before the first entry with a key not smaller. -/
def insertByLA (e : String × SessionData) :
    List (String × SessionData) → List (String × SessionData)
  | [] => [e]
  | x :: t =>
    if x.2.lastActive < e.2.lastActive then x :: insertByLA e t else e :: x :: t

/-- Python `sorted(self.sessions.items(), key=lambda x: x[1]['last_active'])`:
a stable sort by ascending `last_active` (stable sorts by a key are unique,
so any faithful model gives Python's output). -/
def sortByLA (l : List (String × SessionData)) : List (String × SessionData) :=
  l.foldr insertByLA []

/-- `EnhancedMemoryManager._cleanup_old_sessions` (in-memory mode,
lines 207-227): drop the sessions whose `last_active` is older than the
timeout, then, if the population still exceeds `max_sessions`, delete the
oldest-`last_active` sessions until it equals `max_sessions`. -/
def cleanupOldSessions (m : MemoryManager) (now : Int) : MemoryManager :=
  let kept := m.sessions.filter
    (fun e => decide (now - e.2.lastActive ≤ m.sessionTimeout))
  if kept.length > m.maxSessions then
    let sorted := sortByLA kept
    let toRemove := (sorted.take (kept.length - m.maxSessions)).map Prod.fst
    { m with sessions := kept.filter (fun e => decide (e.1 ∉ toRemove)) }
  else
    { m with sessions := kept }

/-- `EnhancedMemoryManager.get_session` (in-memory mode, lines 73-89):
create the session if absent, else refresh its `last_active`; then run the
cleanup sweep and return the session read back from the store (`none`
models the `KeyError` were the session just evicted). -/
def getSession (m : MemoryManager) (sid : String) (now : Int) :
    Option SessionData × MemoryManager :=
  let m1 :=
    if (alookup m.sessions sid).isSome then
      { m with sessions :=
          aupdate m.sessions sid (fun sd => { sd with lastActive := now }) }
    else
      { m with sessions := m.sessions ++ [(sid, freshSession now)] }
  let m2 := cleanupOldSessions m1 now
  (alookup m2.sessions sid, m2)

/-- The fixed topic keyword list of `_extract_topics`. -/
def topicKeywords : List String :=
  ["weather", "time", "jokes", "help", "technology", "work", "family"]

/-- `EnhancedMemoryManager._extract_topics`: add each topic keyword occurring
in the lower-cased message to the session's topic set. -/
def extractTopics (topics : List String) (message : String) : List String :=
  topicKeywords.foldl
    (fun acc topic =>
      if containsSub (pyLower message) topic then setAdd acc topic else acc)
    topics

/-- The history trim of `add_message`: keep only the last 20 entries. -/
def trimHistory (h : List Exchange) : List Exchange :=
  if h.length > 20 then h.drop (h.length - 20) else h

/-- `EnhancedMemoryManager.add_message` (in-memory mode, lines 91-134):
get-or-create the session, append the new exchange, bump the message
count, extract topics from the user message, trim the history to the most
recent 20 entries. -/
def addMessage (m : MemoryManager) (sid user bot : String)
    (sentiment : Option String) (now : Int) : MemoryManager :=
  let m1 := (getSession m sid now).2
  { m1 with sessions := aupdate m1.sessions sid (fun sd =>
      { sd with
        history := trimHistory
          (sd.history ++ [⟨now, user, bot, sentiment⟩]),
        messageCount := sd.messageCount + 1,
        conversationTopics := extractTopics sd.conversationTopics user }) }

/-- `EnhancedMemoryManager.get_context_summary` (in-memory branch,
lines 136-153). -/
def getContextSummary (m : MemoryManager) (sid : String) (now : Int) :
    String × MemoryManager :=
  let r := getSession m sid now
  match r.1 with
  | none => ("", r.2)
  | some sd =>
    if sd.history.isEmpty then ("", r.2)
    else
      let topics :=
        sd.conversationTopics.drop (sd.conversationTopics.length - 3)
      ("Recent topics: " ++
        (if topics.isEmpty then "general conversation" else joinComma topics),
       r.2)

/-- `EnhancedMemoryManager.get_session_stats` (in-memory mode, lines 241-249):
(total sessions, sessions active within the last hour). -/
def getSessionStats (m : MemoryManager) (now : Int) : Nat × Nat :=
  (m.sessions.length,
   (m.sessions.filter (fun e => decide (now - e.2.lastActive < 3600))).length)

/-! ## ChatBot._fallback_response (src/app.py, lines 137-239) -/

def jokesFallback : List String :=
  ["Why don't scientists trust atoms? Because they make up everything! 😄",
   "Why did the programmer quit his job? Because he didn't get arrays! 💻",
   "Why do programmers prefer dark mode? Because light attracts bugs! 🐛",
   "What do you call a bear with no teeth? A gummy bear! 🐻",
   "Why don't eggs tell jokes? They'd crack each other up! 🥚",
   "What's the best thing about Switzerland? I don't know, but the flag is a big plus! 🇨🇭"]

def defaultResponsesFallback : List String :=
  ["That's fascinating! Tell me more about what you're thinking. 💭",
   "I'd love to learn more about that topic. Could you share some details? 🤔",
   "That sounds really interesting! What aspects of it would you like to explore? 🌟",
   "I'm curious to know more! Could you help me understand what you mean? 💡",
   "That's a great topic to discuss! What specifically interests you about it? 🗣️",
   "I find that intriguing! Can you tell me what prompted that question? ❓",
   "That's worth exploring! What would you like to know more about? 🔍"]

def genericQuestionReplyFallback : String :=
  "That's an interesting question! I'd be happy to help you with that. Could you provide a bit more context or detail so I can give you a better answer?"

def botNameReplyFallback : String :=
  "My name is STAN! It's nice to meet you. What's your name? Or if you prefer, I'm happy to just chat without names too!"

/-- `ChatBot._fallback_response`: the ordered keyword cascade. `currentTime`
stands for the formatted `datetime.datetime.now()` of the time rule. -/
def fallbackResponse (k : Nat) (currentTime : String) (userInput : String) :
    String :=
  let t := pyLower userInput
  if anyContains t ["hello", "hi", "hey", "good morning", "good afternoon"] then
    "Hello! I'm STAN, your AI assistant. How can I help you today?"
  else if anyContains t ["what's up", "whats up", "wassup", "sup", "how's it going"] then
    "Not much, just here ready to chat with you! What's going on with you?"
  else if anyContains t ["what are you", "who are you", "what is chatbot", "about you"] then
    "I'm STAN, an AI chatbot designed to help answer questions and have conversations. I'm here to assist you with various topics!"
  else if anyContains t ["are you a bot", "are you real", "are you human", "are you ai"] then
    "Yes, I'm STAN, an AI chatbot assistant! I'm here to help and chat with you."
  else if anyContains t ["how are you", "how do you feel", "how is it going"] then
    "I'm doing great, thank you for asking! I'm ready to help you with whatever you need. How are you doing today?"
  else if anyContains t ["sad", "down", "depressed", "upset"] then
    "I'm sorry you're feeling down. Would you like to talk about what's bothering you? I'm here to listen."
  else if anyContains t ["happy", "excited", "great", "awesome"] then
    "That's wonderful! I love hearing when people are happy. What's made your day so great?"
  else if containsSub t "what" && anyContains t ["doing", "up to", "happening"] then
    "I'm here chatting with you and ready to help! I can answer questions, provide information, or just have a friendly conversation. What would you like to talk about?"
  else if anyContains t ["what can you do", "your capabilities", "help me with"] then
    "I can help you with many things! I can answer questions, provide information, help with problem-solving, have conversations, and assist with various topics. What specific help do you need?"
  else if (containsSub t "name" && anyContains t ["your", "what", "called"])
      || containsSub t "what's your name" then
    botNameReplyFallback
  else if anyContains t ["age", "old", "born", "created"] || containsSub t "how old" then
    "I'm a relatively new AI assistant! I don't age like humans do, but I'm constantly learning from our conversations. How long have you been interested in chatbots?"
  else if anyContains t ["time", "clock", "hour", "minute"] || containsSub t "what time" then
    "The current time is approximately " ++ currentTime ++ ". How can I help you with your day? 🕐"
  else if containsSub t "weather" then
    "I don't have access to real-time weather data, but I'd suggest checking a weather app or website like weather.com for current conditions in your area! ☀️🌧️"
  else if anyContains t ["joke", "funny", "humor", "laugh"] then
    pyChoice k jokesFallback
  else if anyContains t ["smart", "intelligent", "good", "great", "awesome", "amazing"] then
    "Thank you so much! That's very kind of you to say. I really enjoy our conversation and I'm here whenever you need help! 😊"
  else if anyContains t ["what", "how", "why", "when", "where", "which", "who"] then
    genericQuestionReplyFallback
  else if anyContains t ["thank", "thanks", "appreciate"] then
    "You're very welcome! I'm glad I could help. Is there anything else you'd like to know or discuss?"
  else if anyContains t ["bye", "goodbye", "see you", "talk later", "farewell"] then
    "Goodbye! It was great chatting with you. Feel free to come back anytime if you need help. Have a wonderful day!"
  else if anyContains t ["help", "assist", "support"] then
    "I'm here to help! You can ask me questions about various topics, request information, or just have a conversation. What would you like assistance with?"
  else
    pyChoice k defaultResponsesFallback

/-! ## generate_enhanced_response (src/app.py, lines 361-451)

The module src/app.py never initialises the global `user_data` (it is read
and written in 8 places but no `user_data = ...` statement exists anywhere
in the repository), so the store is carried as `Option UserData`: `none`
is the module state as imported, and any read of it raises `NameError`. -/

inductive PyError where
  | nameError
deriving DecidableEq

/-- The `user_data` global: session id → per-session fact dict. -/
abbrev UserData := List (String × List (String × String))

def jokesGER : List String :=
  ["Why don't scientists trust atoms? Because they make up everything! 😄",
   "What do you call a fake noodle? An impasta! 🍝",
   "Why did the scarecrow win an award? He was outstanding in his field! 🌾"]

def defaultResponsesGER : List String :=
  ["That's interesting! Tell me more about that.",
   "I see. What else would you like to discuss?",
   "Thanks for sharing that with me. How can I help you further?",
   "I understand. What would you like to know more about?"]

def botIdentityReplyGER : String :=
  "I'm STAN, your AI assistant! It's nice to meet you. What's your name?"

def dontRecallReply : String :=
  "I don't recall you mentioning that. Could you tell me again?"

/-- `generate_enhanced_response`: ordered rules over the normalized input,
with the two capture rules and the recall rule reading/writing `user_data`
(raising `NameError` while that global is unbound). -/
def generateEnhancedResponse (k : Nat) (userInput sessionId : String)
    (ud : Option UserData) : Except PyError (String × Option UserData) :=
  let t := pyStrip (pyLower userInput)
  match reCaptureAfter "my name is ".data t.data with
  | some w =>
    let name := pyTitle (String.mk w)
    match ud with
    | none => .error .nameError
    | some d =>
      let entry := (alookup d sessionId).getD []
      let d' := aset d sessionId (aset entry "name" name)
      .ok ("Nice to meet you, " ++ name ++ "! I'll remember that. How can I help you today?",
           some d')
  | none =>
  match reCaptureColor t.data with
  | some w =>
    let color := String.mk w
    match ud with
    | none => .error .nameError
    | some d =>
      let entry := (alookup d sessionId).getD []
      let d' := aset d sessionId (aset entry "favorite_color" color)
      .ok (pyTitle color ++ " is a lovely color! I'll remember that you like " ++ color ++ ".",
           some d')
  | none =>
  if containsSub t "what did i say" || containsSub t "did i say" then
    match ud with
    | none => .error .nameError
    | some d =>
      match alookup d sessionId with
      | some data =>
        if (alookup data "name").isSome && containsSub t "name" then
          .ok ("You told me your name is " ++ (alookup data "name").getD "" ++ "!", ud)
        else if (alookup data "favorite_color").isSome && containsSub t "color" then
          .ok ("You said your favorite color is " ++ (alookup data "favorite_color").getD "" ++ "!", ud)
        else .ok (dontRecallReply, ud)
      | none => .ok (dontRecallReply, ud)
  else if anyContains t ["hello", "hi", "hey", "good morning", "good afternoon"] then
    .ok ("Hello! I'm STAN, your AI assistant. How can I help you today?", ud)
  else if anyContains t ["what's up", "whats up", "wassup", "sup", "how's it going"] then
    .ok ("Not much, just here ready to chat with you! What's going on with you?", ud)
  else if (containsSub t "name" && anyContains t ["your", "what", "called"])
      || containsSub t "what's your name" then
    .ok (botIdentityReplyGER, ud)
  else if anyContains t ["are you a bot", "are you real", "are you human", "are you ai"] then
    .ok ("Yes, I'm STAN, an AI chatbot assistant! I'm here to help and chat with you.", ud)
  else if anyContains t ["how are you", "how do you feel", "how is it going"] then
    .ok ("I'm doing great, thank you for asking! I'm ready to help you with whatever you need. How are you doing today?", ud)
  else if anyContains t ["sad", "down", "depressed", "upset"] then
    .ok ("I'm sorry you're feeling down. Would you like to talk about what's bothering you? I'm here to listen.", ud)
  else if anyContains t ["happy", "excited", "great", "awesome"] then
    .ok ("That's wonderful! I love hearing when people are happy. What's made your day so great?", ud)
  else if anyContains t ["joke", "funny", "humor", "laugh"] then
    .ok (pyChoice k jokesGER, ud)
  else if anyContains t ["what can you do", "help me", "your capabilities"] then
    .ok ("I can help with conversations, answer questions, tell jokes, provide support, and much more! What would you like to try?", ud)
  else if anyContains t ["bored", "boring", "nothing to do"] then
    .ok ("Let's fix that boredom! We could chat about your interests, I could tell you a joke, or help you brainstorm activities!", ud)
  else if anyContains t ["thank", "thanks", "appreciate"] then
    .ok ("You're very welcome! I'm glad I could help. Is there anything else you'd like to know or discuss?", ud)
  else if anyContains t ["bye", "goodbye", "see you", "talk later"] then
    .ok ("Goodbye! It was great chatting with you. Feel free to come back anytime!", ud)
  else
    .ok (pyChoice k defaultResponsesGER, ud)

/-! ## SimpleChatbot.generate_response (src/app_backend_only.py, lines 87-119) -/

def greetingRepliesBk : List String :=
  ["Hello! I'm STAN, your AI assistant. How can I help you today?",
   "Hi there! I'm here to assist you. What can I do for you?",
   "Welcome! I'm STAN. What would you like to know?"]

def howAreYouRepliesBk : List String :=
  ["I'm doing great, thank you for asking! How are you?",
   "I'm functioning well and ready to help! How can I assist you?"]

def capabilitiesRepliesBk : List String :=
  ["I can help you with conversations, answer questions, provide assistance with various topics, and even tell jokes!",
   "I'm here to chat, provide information, tell jokes, and help with any questions you might have!"]

def jokesBk : List String :=
  ["Why don't scientists trust atoms? Because they make up everything! 😄",
   "Why did the scarecrow win an award? Because he was outstanding in his field! 🌾",
   "What do you call a fake noodle? An impasta! 🍝",
   "Why don't eggs tell jokes? They'd crack each other up! 🥚",
   "What do you call a bear with no teeth? A gummy bear! 🐻",
   "Why did the math book look so sad? Because it had too many problems! 📚",
   "What's the best thing about Switzerland? I don't know, but the flag is a big plus! 🇨🇭"]

def thanksRepliesBk : List String :=
  ["You're very welcome! Happy to help!",
   "My pleasure! Is there anything else I can assist you with?"]

def defaultRepliesBk : List String :=
  ["That's interesting! Tell me more about that.",
   "I understand. What would you like to know more about?",
   "Thanks for sharing that with me. How can I help you further?",
   "I see. What else would you like to discuss?"]

def simpleGenerateResponse (k : Nat) (userInput : String) : String :=
  let t := pyLower userInput
  if anyContains t ["hello", "hi", "hey", "greetings"] then
    pyChoice k greetingRepliesBk
  else if anyContains t ["how are you", "how are you doing"] then
    pyChoice k howAreYouRepliesBk
  else if anyContains t ["joke", "funny", "make me laugh", "tell me something funny"] then
    pyChoice k jokesBk
  else if anyContains t ["what can you do", "help me", "capabilities"] then
    pyChoice k capabilitiesRepliesBk
  else if anyContains t ["thank", "thanks", "appreciate"] then
    pyChoice k thanksRepliesBk
  else
    pyChoice k defaultRepliesBk

/-! ## The three POST /chat handlers

The request body is `Option ChatReq`: `none` models a request whose JSON
body is missing/null/empty (falsy in Python), a field's `Option` models
the presence of its key. The bot-model backend of the first handler
(`chatbot.generate_response`) is an external collaborator, passed in as a
function parameter `gen`. -/

structure ChatReq where
  message : Option String
  sessionId : Option String

structure ChatOk where
  response : String
  sessionId : String
  sentiment : String
  context : String
deriving DecidableEq

inductive ChatResult where
  | ok (body : ChatOk)
  | err (status : Nat) (message : String)
deriving DecidableEq

/-- The history formatting of src/app.py lines 287-290: the last 10 stored
exchanges, each as a `User:` and a `Bot:` line. -/
def formatHistory (h : List Exchange) : List String :=
  (h.drop (h.length - 10)).foldr
    (fun msg acc => ("User: " ++ msg.user) :: ("Bot: " ++ msg.bot) :: acc) []

/-- The enhanced `chat` handler of src/app.py, lines 268-329. States carried:
the `EnhancedMemoryManager` (in-memory mode) and the backward-compatibility
`chat_sessions` dict of string lines. -/
def chatEnhanced (gen : String → List String → String) (k : Nat)
    (body : Option ChatReq) (mm : MemoryManager)
    (cs : List (String × List String)) (now : Int) :
    ChatResult × MemoryManager × List (String × List String) :=
  match body with
  | none => (.err 500 "Internal server error", mm, cs)
  | some data =>
    let userMessage := pyStrip (data.message.getD "")
    let sessionId := data.sessionId.getD "default"
    if userMessage = "" then (.err 400 "Empty message", mm, cs)
    else
      let sentiment := sentimentAnalyze userMessage
      let r1 := getSession mm sessionId now
      match r1.1 with
      | none => (.err 500 "Internal server error", r1.2, cs)
      | some sd =>
        let formatted := formatHistory sd.history
        let opener := getEmpatheticOpener k sentiment
        let r2 := getContextSummary r1.2 sessionId now
        let botResponse := applyEmpathyOpener opener sentiment (gen userMessage formatted)
        let mm3 := addMessage r2.2 sessionId userMessage botResponse (some sentiment) now
        let hist1 := (alookup cs sessionId).getD []
          ++ ["User: " ++ userMessage, "Bot: " ++ botResponse]
        let hist2 := if hist1.length > 20 then hist1.drop (hist1.length - 20) else hist1
        let cs' := aset cs sessionId hist2
        (.ok ⟨botResponse, sessionId, sentiment, r2.1⟩, mm3, cs')

/-- The second `chat` handler of src/app.py, lines 482-519: only the
*presence* of the `message` key is checked; `session_id` defaults to a
fresh UUID (`freshUuid`). A `NameError` escaping
`generate_enhanced_response` is caught by the blanket handler as a 500. -/
def chatSecond (k : Nat) (freshUuid : String) (body : Option ChatReq)
    (ud : Option UserData) (cs : List (String × List Exchange)) (now : Int) :
    ChatResult × Option UserData × List (String × List Exchange) :=
  match body with
  | none => (.err 400 "Message is required", ud, cs)
  | some data =>
    match data.message with
    | none => (.err 400 "Message is required", ud, cs)
    | some message =>
      let sessionId := data.sessionId.getD freshUuid
      match generateEnhancedResponse k message sessionId ud with
      | .error _ => (.err 500 "An error occurred", ud, cs)
      | .ok (response, ud') =>
        let sentiment := analyzeSentimentApp message
        let hist := (alookup cs sessionId).getD []
          ++ [⟨now, message, response, some sentiment⟩]
        let cs' := aset cs sessionId hist
        (.ok ⟨response, sessionId, sentiment,
              "Conversation has " ++ toString hist.length ++ " exchanges"⟩,
         ud', cs')

/-- The `chat` handler of src/app_backend_only.py, lines 138-187:
`session_id` defaults to a fresh UUID, history is trimmed to the last 10
exchanges. -/
def chatBackendOnly (k : Nat) (freshUuid : String) (body : Option ChatReq)
    (cs : List (String × List Exchange)) (now : Int) :
    ChatResult × List (String × List Exchange) :=
  match body with
  | none => (.err 500 "Internal server error", cs)
  | some data =>
    let userMessage := pyStrip (data.message.getD "")
    let sessionId := data.sessionId.getD freshUuid
    if userMessage = "" then (.err 400 "Empty message", cs)
    else
      let sentiment := analyzeSentimentBk userMessage
      let hist0 := (alookup cs sessionId).getD []
      let botResponse := simpleGenerateResponse k userMessage
      let hist1 := hist0 ++ [⟨now, userMessage, botResponse, some sentiment⟩]
      let hist2 := if hist1.length > 10 then hist1.drop (hist1.length - 10) else hist1
      let cs' := aset cs sessionId hist2
      (.ok ⟨botResponse, sessionId, sentiment,
            "Conversation has " ++ toString hist2.length ++ " exchanges"⟩,
       cs')

/-! ## Auxiliary definitions used by the statements -/

/-- The last (up to) 20 entries of a list: what Python's `lst[-20:]` keeps. -/
def lastN20 (l : List α) : List α := l.drop (l.length - 20)

/-- One `add_message` call's arguments (with its timestamp). -/
structure AddInput where
  user : String
  bot : String
  sentiment : Option String
  time : Int

def toExchange (a : AddInput) : Exchange := ⟨a.time, a.user, a.bot, a.sentiment⟩

/-- A sequence of `add_message` calls on one session, starting from the
manager that src/app.py constructs. -/
def runAdds (sid : String) (inputs : List AddInput) : MemoryManager :=
  inputs.foldl
    (fun m a => addMessage m sid a.user a.bot a.sentiment a.time)
    appMemoryManager

/-- Whether a run of the response selector returned normally. -/
def exceptIsOk (e : Except PyError (String × Option UserData)) : Bool :=
  match e with
  | .ok _ => true
  | .error _ => false

/-! # Lemmas -/

lemma trimHistory_eq_lastN20 (h : List Exchange) : trimHistory h = lastN20 h := by
  unfold trimHistory lastN20
  split
  · rfl
  · rename_i hle
    rw [Nat.sub_eq_zero_of_le (by omega), List.drop_zero]

lemma lastN20_length (l : List α) : (lastN20 l).length = min l.length 20 := by
  unfold lastN20
  rw [List.length_drop]
  omega

lemma lastN20_append (l r : List α) : lastN20 (lastN20 l ++ r) = lastN20 (l ++ r) := by
  unfold lastN20
  rw [← List.drop_append_of_le_length (by omega)]
  rw [List.drop_drop]
  congr 1
  simp only [List.length_drop, List.length_append]
  omega

lemma trimHistory_length_le (h : List Exchange) : (trimHistory h).length ≤ 20 := by
  rw [trimHistory_eq_lastN20, lastN20_length]; omega

lemma getSession_singleton (sid : String) (sd : SessionData) (mx : Nat) (tmo t : Int)
    (hmx : 1 ≤ mx) (hto : 0 ≤ tmo) :
    getSession ⟨[(sid, sd)], mx, tmo⟩ sid t =
      (some { sd with lastActive := t },
       ⟨[(sid, { sd with lastActive := t })], mx, tmo⟩) := by
  simp [getSession, alookup, aupdate, cleanupOldSessions, hto, Nat.not_lt.mpr hmx]

lemma getSession_emptyStore (sid : String) (mx : Nat) (tmo t : Int)
    (hmx : 1 ≤ mx) (hto : 0 ≤ tmo) :
    getSession ⟨[], mx, tmo⟩ sid t =
      (some (freshSession t), ⟨[(sid, freshSession t)], mx, tmo⟩) := by
  simp [getSession, alookup, aupdate, cleanupOldSessions, freshSession, hto,
    Nat.not_lt.mpr hmx]

lemma addMessage_singleton (sid : String) (sd : SessionData) (mx : Nat) (tmo : Int)
    (u b : String) (s : Option String) (t : Int) (hmx : 1 ≤ mx) (hto : 0 ≤ tmo) :
    addMessage ⟨[(sid, sd)], mx, tmo⟩ sid u b s t =
      ⟨[(sid, { sd with
          lastActive := t,
          history := trimHistory (sd.history ++ [⟨t, u, b, s⟩]),
          messageCount := sd.messageCount + 1,
          conversationTopics := extractTopics sd.conversationTopics u })], mx, tmo⟩ := by
  rw [addMessage, getSession_singleton sid sd mx tmo t hmx hto]
  simp [aupdate]

lemma addMessage_emptyStore (sid : String) (mx : Nat) (tmo : Int)
    (u b : String) (s : Option String) (t : Int) (hmx : 1 ≤ mx) (hto : 0 ≤ tmo) :
    addMessage ⟨[], mx, tmo⟩ sid u b s t =
      ⟨[(sid, { history := [⟨t, u, b, s⟩], createdAt := t, lastActive := t,
                messageCount := 1, userInfo := [],
                conversationTopics := extractTopics [] u,
                sentimentHistory := [] })], mx, tmo⟩ := by
  rw [addMessage, getSession_emptyStore sid mx tmo t hmx hto]
  simp [aupdate, freshSession, trimHistory]

/-- Evolution of a single-session store under a run of `add_message` calls:
the session's history is always the last-20 window of everything appended. -/
lemma foldl_adds (sid : String) : ∀ (inputs : List AddInput) (sd : SessionData)
    (mx : Nat) (tmo : Int), 1 ≤ mx → 0 ≤ tmo → sd.history.length ≤ 20 →
    ∃ sd' : SessionData,
      List.foldl (fun m a => addMessage m sid a.user a.bot a.sentiment a.time)
        ⟨[(sid, sd)], mx, tmo⟩ inputs = ⟨[(sid, sd')], mx, tmo⟩ ∧
      sd'.history = lastN20 (sd.history ++ inputs.map toExchange) := by
  intro inputs
  induction inputs with
  | nil =>
    intro sd mx tmo hmx hto hlen
    refine ⟨sd, rfl, ?_⟩
    unfold lastN20
    simp
    rw [Nat.sub_eq_zero_of_le (by omega), List.drop_zero]
  | cons a rest ih =>
    intro sd mx tmo hmx hto hlen
    rw [List.foldl_cons, addMessage_singleton sid sd mx tmo _ _ _ _ hmx hto]
    obtain ⟨sd', heq, hh⟩ := ih
      { sd with
        lastActive := a.time,
        history := trimHistory (sd.history ++ [⟨a.time, a.user, a.bot, a.sentiment⟩]),
        messageCount := sd.messageCount + 1,
        conversationTopics := extractTopics sd.conversationTopics a.user }
      mx tmo hmx hto (trimHistory_length_le _)
    refine ⟨sd', heq, ?_⟩
    rw [hh]
    simp only [trimHistory_eq_lastN20]
    rw [lastN20_append]
    simp [toExchange]

lemma alookup_aupdate (l : List (String × α)) (k : String) (f : α → α) :
    alookup (aupdate l k f) k = (alookup l k).map f := by
  induction l with
  | nil => simp [alookup, aupdate]
  | cons e t ih =>
    obtain ⟨k', v⟩ := e
    by_cases hk : k' = k
    · simp [alookup, aupdate, hk]
    · simp [alookup, aupdate, hk, ih]

lemma pyChoice_mem (k : Nat) (l : List String) (h : l ≠ []) : pyChoice k l ∈ l := by
  unfold pyChoice
  have hlt : k % l.length < l.length := Nat.mod_lt _ (List.length_pos.mpr h)
  rw [List.getD_eq_getElem _ _ hlt]
  exact List.getElem_mem _

set_option maxHeartbeats 1000000 in
lemma ger_total_bool (k : Nat) (input sid : String) (d : UserData) :
    exceptIsOk (generateEnhancedResponse k input sid (some d)) = true := by
  unfold generateEnhancedResponse
  dsimp only
  split
  · rfl
  split
  · rfl
  cases halo : alookup d sid with
  | none =>
    simp only [halo]
    simp only [apply_ite exceptIsOk]
    simp only [exceptIsOk, ite_self]
  | some data =>
    simp only [halo]
    simp only [apply_ite exceptIsOk]
    simp only [exceptIsOk, ite_self]

lemma ger_total (k : Nat) (input sid : String) (d : UserData) :
    ∃ r ud', generateEnhancedResponse k input sid (some d) = .ok (r, ud') := by
  have h := ger_total_bool k input sid d
  cases he : generateEnhancedResponse k input sid (some d) with
  | error e => rw [he] at h; simp [exceptIsOk] at h
  | ok p =>
    obtain ⟨r, ud'⟩ := p
    exact ⟨r, ud', rfl⟩

lemma alookup_eq_none_iff (l : List (String × α)) (k : String) :
    alookup l k = none ↔ ∀ e ∈ l, e.1 ≠ k := by
  induction l with
  | nil => simp [alookup]
  | cons e t ih =>
    obtain ⟨k', v⟩ := e
    by_cases hk : k' = k <;> simp [alookup, hk, ih]

lemma alookup_mem {l : List (String × α)} {k : String} {v : α}
    (h : alookup l k = some v) : (k, v) ∈ l := by
  induction l with
  | nil => simp [alookup] at h
  | cons e t ih =>
    obtain ⟨k', v'⟩ := e
    by_cases hk : k' = k
    · subst hk
      simp [alookup] at h
      simp [h]
    · simp [alookup, hk] at h
      simp [ih h]

lemma alookup_unique {l : List (String × α)} {k : String} {v : α}
    (hnd : (l.map Prod.fst).Nodup) (h : alookup l k = some v) :
    ∀ e ∈ l, e.1 = k → e = (k, v) := by
  induction l with
  | nil => simp
  | cons e0 t ih =>
    obtain ⟨k', v'⟩ := e0
    simp only [List.map_cons, List.nodup_cons] at hnd
    by_cases hk : k' = k
    · subst hk
      simp [alookup] at h
      subst h
      intro e he hkey
      rcases List.mem_cons.mp he with h1 | h1
      · simp [h1]
      · exfalso
        exact hnd.1 (hkey ▸ List.mem_map_of_mem Prod.fst h1)
    · simp only [alookup, if_neg hk] at h
      intro e he hkey
      rcases List.mem_cons.mp he with h1 | h1
      · exfalso; rw [h1] at hkey; exact hk hkey
      · exact ih hnd.2 h e h1 hkey

lemma length_aupdate (l : List (String × α)) (k : String) (f : α → α) :
    (aupdate l k f).length = l.length := by
  induction l with
  | nil => rfl
  | cons e t ih =>
    obtain ⟨k', v⟩ := e
    by_cases hk : k' = k <;> simp [aupdate, hk, ih]

lemma mapfst_aupdate (l : List (String × α)) (k : String) (f : α → α) :
    (aupdate l k f).map Prod.fst = l.map Prod.fst := by
  induction l with
  | nil => rfl
  | cons e t ih =>
    obtain ⟨k', v⟩ := e
    by_cases hk : k' = k <;> simp [aupdate, hk, ih]

lemma alookup_filter_some {l : List (String × α)} {k : String} {v : α}
    (p : String × α → Bool) (hnd : (l.map Prod.fst).Nodup)
    (h : alookup l k = some v) (hp : p (k, v) = true) :
    alookup (l.filter p) k = some v := by
  induction l with
  | nil => simp [alookup] at h
  | cons e0 t ih =>
    obtain ⟨k', v'⟩ := e0
    simp only [List.map_cons, List.nodup_cons] at hnd
    by_cases hk : k' = k
    · subst hk
      simp [alookup] at h
      subst h
      rw [List.filter_cons, if_pos hp]
      simp [alookup]
    · simp only [alookup, if_neg hk] at h
      rw [List.filter_cons]
      split
      · simp only [alookup, if_neg hk]
        exact ih hnd.2 h
      · exact ih hnd.2 h

lemma alookup_filter_none {l : List (String × α)} {k : String} {v : α}
    (p : String × α → Bool) (hnd : (l.map Prod.fst).Nodup)
    (h : alookup l k = some v) (hp : p (k, v) = false) :
    alookup (l.filter p) k = none := by
  rw [alookup_eq_none_iff]
  intro e he hkey
  have hmem := List.mem_filter.mp he
  have := alookup_unique hnd h e hmem.1 hkey
  rw [this] at hmem
  rw [hp] at hmem
  exact Bool.false_ne_true hmem.2

lemma alookup_append_right {l l2 : List (String × α)} {k : String}
    (h : alookup l k = none) : alookup (l ++ l2) k = alookup l2 k := by
  induction l with
  | nil => rfl
  | cons e t ih =>
    obtain ⟨k', v⟩ := e
    by_cases hk : k' = k
    · simp [alookup, hk] at h
    · simp only [alookup, if_neg hk] at h
      simp only [List.cons_append, alookup, if_neg hk]
      exact ih h

lemma perm_insertByLA (e : String × SessionData) (l : List (String × SessionData)) :
    List.Perm (insertByLA e l) (e :: l) := by
  induction l with
  | nil => rfl
  | cons x t ih =>
    unfold insertByLA
    split
    · exact ((ih).cons x).trans (List.Perm.swap e x t)
    · rfl

lemma perm_sortByLA (l : List (String × SessionData)) : List.Perm (sortByLA l) l := by
  induction l with
  | nil => rfl
  | cons x t ih =>
    unfold sortByLA at ih ⊢
    rw [List.foldr_cons]
    exact (perm_insertByLA x _).trans (ih.cons x)

lemma mem_sortByLA {x : String × SessionData} {l : List (String × SessionData)} :
    x ∈ sortByLA l ↔ x ∈ l := (perm_sortByLA l).mem_iff

lemma length_sortByLA (l : List (String × SessionData)) :
    (sortByLA l).length = l.length := (perm_sortByLA l).length_eq

/-- The head of the stable sort is a minimum of the list. -/
lemma sortByLA_head_min (l : List (String × SessionData)) :
    ∀ hd rest, sortByLA l = hd :: rest → ∀ x ∈ l, hd.2.lastActive ≤ x.2.lastActive := by
  induction l with
  | nil => intro hd rest h; simp [sortByLA] at h
  | cons a t ih =>
    intro hd rest h x hx
    rw [show sortByLA (a :: t) = insertByLA a (sortByLA t) from rfl] at h
    cases hst : sortByLA t with
    | nil =>
      have ht : t = [] := by
        have hl := (perm_sortByLA t).length_eq
        rw [hst] at hl
        exact List.length_eq_zero.mp hl.symm
      rw [hst] at h
      unfold insertByLA at h
      cases h
      rcases List.mem_cons.mp hx with h1 | h1
      · rw [h1]
      · rw [ht] at h1; simp at h1
    | cons b r =>
      rw [hst] at h
      unfold insertByLA at h
      split at h
      · rename_i hblt
        cases h
        rcases List.mem_cons.mp hx with h1 | h1
        · rw [h1]; omega
        · exact ih _ _ hst x h1
      · rename_i hble
        cases h
        rcases List.mem_cons.mp hx with h1 | h1
        · rw [h1]
        · have hb := ih _ _ hst x h1
          omega

lemma length_filter_compl (p : α → Bool) (l : List α) :
    (l.filter p).length + (l.filter (fun x => !(p x))).length = l.length := by
  induction l with
  | nil => rfl
  | cons a t ih =>
    cases hp : p a <;> simp [List.filter_cons, hp] <;> omega

/-- The over-ceiling eviction removes at least `kept.length - max` entries, so
cleanup always leaves at most `max` sessions. -/
lemma cleanup_length_le (m : MemoryManager) (now : Int) :
    (cleanupOldSessions m now).sessions.length ≤ m.maxSessions := by
  unfold cleanupOldSessions
  dsimp only
  split
  · rename_i hgt
    set kept := m.sessions.filter
      (fun e => decide (now - e.2.lastActive ≤ m.sessionTimeout)) with hkept
    set k := kept.length - m.maxSessions with hk
    set toRemove := ((sortByLA kept).take k).map Prod.fst with htr
    have hcompl := length_filter_compl (fun e => decide (e.1 ∈ toRemove)) kept
    have hperm : List.Perm (kept.filter (fun e => decide (e.1 ∈ toRemove)))
        ((sortByLA kept).filter (fun e => decide (e.1 ∈ toRemove))) :=
      ((perm_sortByLA kept).filter _).symm
    have hksort : k ≤ (sortByLA kept).length := by
      rw [length_sortByLA]; omega
    have htake : ((sortByLA kept).take k).filter (fun e => decide (e.1 ∈ toRemove))
        = (sortByLA kept).take k := by
      apply List.filter_eq_self.mpr
      intro e he
      simp only [decide_eq_true_eq]
      exact List.mem_map_of_mem Prod.fst he
    have hsplit : (sortByLA kept).filter (fun e => decide (e.1 ∈ toRemove))
        = ((sortByLA kept).take k).filter (fun e => decide (e.1 ∈ toRemove))
          ++ ((sortByLA kept).drop k).filter (fun e => decide (e.1 ∈ toRemove)) := by
      rw [← List.filter_append, List.take_append_drop]
    have hge : k ≤ (kept.filter (fun e => decide (e.1 ∈ toRemove))).length := by
      rw [hperm.length_eq, hsplit, List.length_append, htake, List.length_take]
      omega
    have heq : (fun e : String × SessionData => decide (e.1 ∉ toRemove))
        = (fun e : String × SessionData => !(decide (e.1 ∈ toRemove))) := by
      funext e
      simp [decide_not]
    dsimp only
    rw [heq]
    have hgt2 : m.maxSessions < kept.length := hgt
    omega
  · rename_i hle
    simp only [Nat.not_lt] at hle
    exact hle

lemma getSession_length_le (m : MemoryManager) (sid : String) (t : Int) :
    (getSession m sid t).2.sessions.length ≤ m.maxSessions := by
  unfold getSession
  dsimp only
  split
  · exact cleanup_length_le _ t
  · exact cleanup_length_le _ t


lemma length_filter_ne_of_nodup : ∀ (l : List (String × α)) (e : String × α),
    (l.map Prod.fst).Nodup → e ∈ l →
    (l.filter (fun x => decide (x.1 ≠ e.1))).length + 1 = l.length := by
  intro l
  induction l with
  | nil => simp
  | cons a t ih =>
    intro e hnd he
    simp only [List.map_cons, List.nodup_cons] at hnd
    rcases List.mem_cons.mp he with h1 | h1
    · subst h1
      rw [List.filter_cons, if_neg (by simp)]
      have hall : t.filter (fun x => decide (x.1 ≠ e.1)) = t := by
        apply List.filter_eq_self.mpr
        intro x hx
        simp only [decide_eq_true_eq]
        intro hkey
        exact hnd.1 (hkey ▸ List.mem_map_of_mem Prod.fst hx)
      rw [hall]
      simp
    · have hane : a.1 ≠ e.1 := by
        intro hkey
        exact hnd.1 (hkey ▸ List.mem_map_of_mem Prod.fst h1)
      rw [List.filter_cons, if_pos (by simpa using hane)]
      simp only [List.length_cons]
      rw [← ih e hnd.2 h1]


lemma length_filter_lt_of_mem_false : ∀ (l : List α) (e : α) (p : α → Bool),
    e ∈ l → p e = false → (l.filter p).length < l.length := by
  intro l
  induction l with
  | nil => simp
  | cons a t ih =>
    intro e p he hp
    rcases List.mem_cons.mp he with h1 | h1
    · subst h1
      rw [List.filter_cons, if_neg (by simp [hp])]
      simp only [List.length_cons]
      exact Nat.lt_succ_of_le (List.length_filter_le p t)
    · rw [List.filter_cons]
      split
      · simp only [List.length_cons]
        exact Nat.succ_lt_succ (ih e p h1 hp)
      · simp only [List.length_cons]
        exact Nat.lt_succ_of_lt (ih e p h1 hp)

lemma filter_skip_key (l : List (String × α)) (k : String) (q : String × α → Bool)
    (h : ∀ e ∈ l, e.1 = k → q e = false) :
    l.filter q = (l.filter (fun e => decide (e.1 ≠ k))).filter q := by
  induction l with
  | nil => rfl
  | cons a t ih =>
    have ht : ∀ e ∈ t, e.1 = k → q e = false := fun e he => h e (List.mem_cons_of_mem a he)
    by_cases hk : a.1 = k
    · have hqa : q a = false := h a (List.mem_cons_self a t) hk
      have h1 : List.filter q (a :: t) = List.filter q t := by
        rw [List.filter_cons, if_neg (by simp [hqa])]
      have h2 : List.filter (fun e => decide (e.1 ≠ k)) (a :: t)
          = List.filter (fun e => decide (e.1 ≠ k)) t := by
        rw [List.filter_cons, if_neg (by simp [hk])]
      rw [h1, h2]
      exact ih ht
    · have h2 : List.filter (fun e => decide (e.1 ≠ k)) (a :: t)
          = a :: List.filter (fun e => decide (e.1 ≠ k)) t := by
        rw [List.filter_cons, if_pos (by simpa using hk)]
      rw [h2]
      rw [List.filter_cons, List.filter_cons]
      rw [ih ht]

/-- `get_session` on a stored, refreshable session: the refreshed old session
is returned (history intact) as long as the store is within its ceiling. -/
lemma getSession_of_present (M : MemoryManager) (sid : String) (sd : SessionData)
    (t : Int) (hnd : (M.sessions.map Prod.fst).Nodup)
    (hlook : alookup M.sessions sid = some sd)
    (hlen : M.sessions.length ≤ M.maxSessions)
    (hto : 0 ≤ M.sessionTimeout) :
    (getSession M sid t).1 = some { sd with lastActive := t } := by
  unfold getSession
  rw [hlook]
  simp only [Option.isSome_some, if_true]
  set m1s := aupdate M.sessions sid (fun s0 => { s0 with lastActive := t }) with hm1s
  have hlook1 : alookup m1s sid = some { sd with lastActive := t } := by
    rw [hm1s, alookup_aupdate, hlook]
    rfl
  have hnd1 : (m1s.map Prod.fst).Nodup := by
    rw [hm1s, mapfst_aupdate]; exact hnd
  unfold cleanupOldSessions
  dsimp only
  rw [if_neg (by
    have h1 := List.length_filter_le
      (fun e : String × SessionData => decide (t - e.2.lastActive ≤ M.sessionTimeout)) m1s
    have h2 : m1s.length = M.sessions.length := by rw [hm1s, length_aupdate]
    omega)]
  dsimp only
  exact alookup_filter_some _ hnd1 hlook1 (by simpa using hto)

/-- `get_session` on an absent session id in a store of unexpired sessions
with room below the ceiling: a fresh session is created and returned. -/
lemma getSession_of_absent (M : MemoryManager) (sid : String) (t : Int)
    (habs : alookup M.sessions sid = none)
    (hkeep : ∀ e ∈ M.sessions, t - e.2.lastActive ≤ M.sessionTimeout)
    (hlen : M.sessions.length + 1 ≤ M.maxSessions)
    (hto : 0 ≤ M.sessionTimeout) :
    (getSession M sid t).1 = some (freshSession t) := by
  unfold getSession
  rw [habs]
  simp only [Option.isSome_none, Bool.false_eq_true, if_false]
  unfold cleanupOldSessions
  dsimp only
  have hkeepall : (M.sessions ++ [(sid, freshSession t)]).filter
      (fun e => decide (t - e.2.lastActive ≤ M.sessionTimeout))
      = M.sessions ++ [(sid, freshSession t)] := by
    apply List.filter_eq_self.mpr
    intro e he
    simp only [decide_eq_true_eq]
    rcases List.mem_append.mp he with h1 | h1
    · exact hkeep e h1
    · simp only [List.mem_singleton] at h1
      rw [h1]
      simp only [freshSession]
      omega
  rw [hkeepall]
  rw [if_neg (by
    simp only [List.length_append, List.length_singleton]
    omega)]
  dsimp only
  rw [alookup_append_right habs]
  simp [alookup]

/-- Creating a session at the ceiling evicts exactly the oldest-last-active
entry. -/
lemma getSession_evicts_oldest :
    ∀ (m : MemoryManager) (sid : String) (t : Int),
      (m.sessions.map Prod.fst).Nodup →
      m.sessions.length = m.maxSessions →
      1 ≤ m.maxSessions →
      alookup m.sessions sid = none →
      0 ≤ m.sessionTimeout →
      (∀ e ∈ m.sessions, t - e.2.lastActive ≤ m.sessionTimeout ∧ e.2.lastActive < t) →
      ∃ ev ∈ m.sessions,
        (∀ e ∈ m.sessions, ev.2.lastActive ≤ e.2.lastActive) ∧
        (getSession m sid t).2.sessions
          = m.sessions.filter (fun e => decide (e.1 ≠ ev.1)) ++ [(sid, freshSession t)] ∧
        (getSession m sid t).2.sessions.length = m.maxSessions := by
  intro m sid t hnd hlen hmax hnot hto hfresh
  -- the store after insertion of the fresh session
  have hm1 : (if (alookup m.sessions sid).isSome then
        { m with sessions := aupdate m.sessions sid (fun sd => { sd with lastActive := t }) }
      else { m with sessions := m.sessions ++ [(sid, freshSession t)] })
      = { m with sessions := m.sessions ++ [(sid, freshSession t)] } := by
    rw [hnot]
    rfl
  -- nothing is expired, so the timeout filter keeps everything
  have hkeepall : (m.sessions ++ [(sid, freshSession t)]).filter
      (fun e => decide (t - e.2.lastActive ≤ m.sessionTimeout))
      = m.sessions ++ [(sid, freshSession t)] := by
    apply List.filter_eq_self.mpr
    intro e he
    simp only [decide_eq_true_eq]
    rcases List.mem_append.mp he with h1 | h1
    · exact (hfresh e h1).1
    · simp only [List.mem_singleton] at h1
      rw [h1]
      simp [freshSession]
      omega
  have hlen1 : (m.sessions ++ [(sid, freshSession t)]).length = m.maxSessions + 1 := by
    simp [hlen]
  -- the sorted list is non-empty; its head is the evicted entry
  obtain ⟨ev, rest, hsorted⟩ :
      ∃ ev rest, sortByLA (m.sessions ++ [(sid, freshSession t)]) = ev :: rest := by
    cases hs : sortByLA (m.sessions ++ [(sid, freshSession t)]) with
    | nil =>
      have := length_sortByLA (m.sessions ++ [(sid, freshSession t)])
      rw [hs, hlen1] at this
      simp at this
    | cons a r => exact ⟨a, r, rfl⟩
  have hev_mem : ev ∈ m.sessions ++ [(sid, freshSession t)] := by
    rw [← mem_sortByLA, hsorted]
    simp
  have hev_min : ∀ x ∈ m.sessions ++ [(sid, freshSession t)],
      ev.2.lastActive ≤ x.2.lastActive :=
    sortByLA_head_min _ ev rest hsorted
  -- the oldest entry is an old session, not the fresh one
  obtain ⟨e0, he0⟩ : ∃ e0, e0 ∈ m.sessions := by
    cases hc : m.sessions with
    | nil => rw [hc] at hlen; simp at hlen; omega
    | cons a r => exact ⟨a, by simp [hc]⟩
  have hev_old : ev ∈ m.sessions := by
    rcases List.mem_append.mp hev_mem with h1 | h1
    · exact h1
    · exfalso
      simp only [List.mem_singleton] at h1
      have hle := hev_min e0 (List.mem_append_left _ he0)
      rw [h1] at hle
      simp only [freshSession] at hle
      have := (hfresh e0 he0).2
      omega
  have hev_ne_sid : ev.1 ≠ sid := by
    rw [alookup_eq_none_iff] at hnot
    exact hnot ev hev_old
  -- evaluate getSession
  refine ⟨ev, hev_old, fun e he => hev_min e (List.mem_append_left _ he), ?_, ?_⟩
  all_goals {
    unfold getSession cleanupOldSessions
    dsimp only
    rw [hm1]
    dsimp only
    rw [hkeepall, hlen1]
    rw [if_pos (by omega)]
    dsimp only
    rw [show m.maxSessions + 1 - m.maxSessions = 1 by omega, hsorted]
    simp only [List.take_succ_cons, List.take_zero, List.map_cons, List.map_nil]
    rw [show (fun e : String × SessionData => decide (e.1 ∉ ([ev.1] : List String)))
        = (fun e : String × SessionData => decide (e.1 ≠ ev.1)) from by
      funext e; simp]
    rw [List.filter_append]
    rw [show List.filter (fun e : String × SessionData => decide (e.1 ≠ ev.1))
          [(sid, freshSession t)] = [(sid, freshSession t)] from by
      simp [List.filter_cons]
      intro hc
      exact absurd hc.symm hev_ne_sid]
    try rfl
    try {
      rw [List.length_append]
      have := length_filter_ne_of_nodup m.sessions ev hnd hev_old
      simp only [List.length_singleton]
      omega
    }
  }

/-! # Claims -/

/-- C1: for every session id, after any sequence of N `add_message` calls on
that session (starting from the manager src/app.py constructs), reading the
session's history via `get_session` yields exactly the last `min(N, 20)`
appended exchanges, in insertion (chronological) order; moreover, after any
single completed `add_message` on any manager, the touched session's stored
history has length at most 20. -/
theorem claim_C1_history_retention :
    ∀ (sid : String) (inputs : List AddInput) (t : Int),
    ((getSession (runAdds sid inputs) sid t).1).map SessionData.history
        = some ((inputs.map toExchange).drop (inputs.length - 20)) ∧
    ((inputs.map toExchange).drop (inputs.length - 20)).length = min inputs.length 20 ∧
    ∀ (m : MemoryManager) (sid2 u b : String) (s : Option String) (t2 : Int)
      (sd : SessionData),
      alookup (addMessage m sid2 u b s t2).sessions sid2 = some sd →
      sd.history.length ≤ 20 := by
  intro sid inputs t
  refine ⟨?_, ?_, ?_⟩
  · cases inputs with
    | nil =>
      simp only [runAdds, List.foldl_nil]
      rw [show appMemoryManager = (⟨[], 1000, 24 * 3600⟩ : MemoryManager) from rfl,
        getSession_emptyStore sid 1000 (24 * 3600) t (by norm_num) (by norm_num)]
      simp [freshSession]
    | cons a rest =>
      simp only [runAdds, List.foldl_cons]
      rw [show appMemoryManager = (⟨[], 1000, 24 * 3600⟩ : MemoryManager) from rfl,
        addMessage_emptyStore sid 1000 (24 * 3600) a.user a.bot a.sentiment a.time
          (by norm_num) (by norm_num)]
      obtain ⟨sd', heq, hh⟩ := foldl_adds sid rest
        { history := [⟨a.time, a.user, a.bot, a.sentiment⟩], createdAt := a.time,
          lastActive := a.time, messageCount := 1, userInfo := [],
          conversationTopics := extractTopics [] a.user, sentimentHistory := [] }
        1000 (24 * 3600) (by norm_num) (by norm_num) (by simp)
      rw [heq, getSession_singleton sid sd' 1000 (24 * 3600) t (by norm_num) (by norm_num)]
      simp only [Option.map_some]
      rw [hh]
      simp [lastN20, toExchange]
  · rw [List.length_drop, List.length_map]; omega
  · intro m sid2 u b s t2 sd h
    rw [show (addMessage m sid2 u b s t2).sessions
          = aupdate (getSession m sid2 t2).2.sessions sid2 _ from rfl,
        alookup_aupdate] at h
    cases h' : alookup (getSession m sid2 t2).2.sessions sid2 with
    | none => rw [h'] at h; simp at h
    | some sd0 =>
      rw [h'] at h
      simp only [Option.map_some', Option.some.injEq] at h
      rw [← h]
      exact trimHistory_length_le _

/-- C4: the sentiment classifier returns positive exactly when the count of
positive-dictionary words occurring (case-insensitively, as substrings) in
the text exceeds the count of negative-dictionary words, negative exactly
in the reverse case; on a tie the richer variant returns questioning when
an interrogative word is present and neutral otherwise (never an emotional
label), and the plain src/app.py variant satisfies the same positive/
negative characterization; in particular "good and bad" is neutral under
both. -/
theorem claim_C4_sentiment_characterization :
    ∀ text : String,
    (sentimentAnalyze text = "positive" ↔
      countContained positiveWordsEF (pyLower text)
        > countContained negativeWordsEF (pyLower text)) ∧
    (sentimentAnalyze text = "negative" ↔
      countContained negativeWordsEF (pyLower text)
        > countContained positiveWordsEF (pyLower text)) ∧
    (countContained positiveWordsEF (pyLower text)
        = countContained negativeWordsEF (pyLower text) →
      sentimentAnalyze text =
        (if anyContains (pyLower text) questionWords then "questioning" else "neutral")) ∧
    (analyzeSentimentApp text = "positive" ↔
      countContained positiveWordsApp (pyLower text)
        > countContained negativeWordsApp (pyLower text)) ∧
    (analyzeSentimentApp text = "negative" ↔
      countContained negativeWordsApp (pyLower text)
        > countContained positiveWordsApp (pyLower text)) ∧
    sentimentAnalyze "good and bad" = "neutral" ∧
    analyzeSentimentApp "good and bad" = "neutral" := by
  intro text
  have hne1 : ("negative" : String) ≠ "positive" := by decide
  have hne2 : ("questioning" : String) ≠ "positive" := by decide
  have hne3 : ("neutral" : String) ≠ "positive" := by decide
  have hne4 : ("questioning" : String) ≠ "negative" := by decide
  have hne5 : ("neutral" : String) ≠ "negative" := by decide
  have hne6 : ("positive" : String) ≠ "negative" := by decide
  refine ⟨?_, ?_, ?_, ?_, ?_, by decide, by decide⟩
  · unfold sentimentAnalyze
    dsimp only
    split_ifs <;> simp_all
    all_goals omega
  · unfold sentimentAnalyze
    dsimp only
    split_ifs <;> simp_all
  · intro hEq
    unfold sentimentAnalyze
    split_ifs <;> simp_all
  · unfold analyzeSentimentApp
    dsimp only
    split_ifs <;> simp_all
  · unfold analyzeSentimentApp
    dsimp only
    split_ifs <;> simp_all
    all_goals omega

/-- C5: the capture-rule round trip is what the code evidently intends, but
src/app.py never initialises the `user_data` global, so the very first
message "my name is Alex" raises `NameError` (first conjunct); with the
store initialised to an empty dict the round trip does hold: the capture
rule title-cases the token, persists it under the `name` key of the
session's fact dict and acknowledges it, and the recall message then
yields a reply containing "Alex" (remaining conjuncts). -/
theorem claim_C5_capture_roundtrip : ∀ k k2 : Nat,
    generateEnhancedResponse k "my name is Alex" "session-1" none = .error .nameError ∧
    generateEnhancedResponse k "my name is Alex" "session-1" (some []) =
      .ok ("Nice to meet you, Alex! I'll remember that. How can I help you today?",
           some [("session-1", [("name", "Alex")])]) ∧
    generateEnhancedResponse k2 "what did I say about my name" "session-1"
      (some [("session-1", [("name", "Alex")])]) =
      .ok ("You told me your name is Alex!", some [("session-1", [("name", "Alex")])]) ∧
    containsSub "You told me your name is Alex!" "Alex" = true := by
  intro k k2
  exact ⟨rfl, rfl, rfl, by decide⟩

/-- C6: the well-formed (non-whitespace) input "my name is Alex" makes the
response selector of src/app.py raise `NameError` in the module state as
imported (`user_data` is never initialised), refuting "never raises" on
the code as written; with the store initialised (the evident intent) the
selector returns a reply for every input and session id and never
raises. -/
theorem claim_C6_selector_never_raises :
    pyStrip "my name is Alex" ≠ "" ∧
    (∀ k : Nat,
      generateEnhancedResponse k "my name is Alex" "abc" none = .error .nameError) ∧
    (∀ (k : Nat) (input sid : String) (d : UserData),
      ∃ r ud', generateEnhancedResponse k input sid (some d) = .ok (r, ud')) := by
  refine ⟨by decide, fun k => rfl, fun k input sid d => ger_total k input sid d⟩

/-- C7: on "what's your name" both the bot-identity rule's predicate and the
generic-question predicate hold, yet both response cascades return their
bot-identity reply, not the generic-question fallback (and not a default
reply), because the name rule is tested first. -/
theorem claim_C7_rule_order_bot_identity :
    ∀ (k : Nat) (currentTime sid : String) (ud : Option UserData),
    fallbackResponse k currentTime "what's your name" = botNameReplyFallback ∧
    generateEnhancedResponse k "what's your name" sid ud = .ok (botIdentityReplyGER, ud) ∧
    anyContains (pyLower "what's your name")
      ["what", "how", "why", "when", "where", "which", "who"] = true ∧
    (containsSub (pyLower "what's your name") "name"
      && anyContains (pyLower "what's your name") ["your", "what", "called"]) = true ∧
    botNameReplyFallback ≠ genericQuestionReplyFallback ∧
    botIdentityReplyGER ≠ pyChoice k defaultResponsesGER := by
  intro k currentTime sid ud
  refine ⟨rfl, rfl, by decide, by decide, by decide, ?_⟩
  have h := pyChoice_mem k defaultResponsesGER (by decide)
  intro hEq
  rw [← hEq] at h
  revert h
  decide

/-- C8 counterexample: the Empathy Prefixer does NOT map 'questioning' to no
prefix — the `empathetic_responses` dict has a 'questioning' entry, so
`get_empathetic_prefix` returns a non-empty opener for it. -/
theorem claim_C8_counterexample :
    getEmpatheticOpener 0 "questioning" =
      "That's a great question! Let me help you with that." ∧
    getEmpatheticOpener 0 "questioning" ≠ "" := by
  exact ⟨rfl, by decide⟩

/-- C8 (amended): `get_empathetic_prefix` maps 'negative', 'positive' AND
'questioning' each to a random choice among that label's 3 fixed openers,
and every label outside the dict (including 'neutral') to the empty
prefix; the caller concatenates the prefix only for 'negative'/'positive',
so 'questioning' and 'neutral' never receive a prefix in the final
response. -/
theorem claim_C8_empathy_mapping : ∀ (k : Nat) (s opener bot : String),
    (∃ l, empatheticResponses "negative" = some l ∧ l.length = 3 ∧
      getEmpatheticOpener k "negative" ∈ l) ∧
    (∃ l, empatheticResponses "positive" = some l ∧ l.length = 3 ∧
      getEmpatheticOpener k "positive" ∈ l) ∧
    (∃ l, empatheticResponses "questioning" = some l ∧ l.length = 3 ∧
      getEmpatheticOpener k "questioning" ∈ l) ∧
    (empatheticResponses s = none → getEmpatheticOpener k s = "") ∧
    empatheticResponses "neutral" = none ∧
    applyEmpathyOpener opener "questioning" bot = bot ∧
    applyEmpathyOpener opener "neutral" bot = bot ∧
    (opener ≠ "" → applyEmpathyOpener opener "negative" bot = opener ++ " " ++ bot) ∧
    (opener ≠ "" → applyEmpathyOpener opener "positive" bot = opener ++ " " ++ bot) := by
  intro k s opener bot
  refine ⟨⟨_, rfl, rfl, pyChoice_mem k _ (by decide)⟩,
          ⟨_, rfl, rfl, pyChoice_mem k _ (by decide)⟩,
          ⟨_, rfl, rfl, pyChoice_mem k _ (by decide)⟩,
          ?_, rfl, by simp [applyEmpathyOpener], by simp [applyEmpathyOpener], ?_, ?_⟩
  · intro hNone
    unfold getEmpatheticOpener
    rw [hNone]
  · intro hne
    simp [applyEmpathyOpener, hne]
  · intro hne
    simp [applyEmpathyOpener, hne]

/-- C9 counterexample: the second `/chat` handler of src/app.py accepts an
empty (present-but-empty-string) `message`: it answers 200, stores the
exchange and mutates the session store, instead of returning 400. -/
theorem claim_C9_counterexample :
    (chatSecond 0 "u1" (some ⟨some "", none⟩) (some []) [] 0).1 =
      ChatResult.ok ⟨"That's interesting! Tell me more about that.", "u1", "neutral",
        "Conversation has 1 exchanges"⟩ ∧
    (chatSecond 0 "u1" (some ⟨some "", none⟩) (some []) [] 0).2.2 =
      [("u1", [⟨0, "", "That's interesting! Tell me more about that.", some "neutral"⟩])] ∧
    ([("u1", [(⟨0, "", "That's interesting! Tell me more about that.", some "neutral"⟩ : Exchange)])]
        : List (String × List Exchange)) ≠ [] := by
  exact ⟨rfl, rfl, by simp⟩

/-- C9 (amended): the enhanced src/app.py handler and the
src/app_backend_only.py handler return 400 with their fixed error body and
leave every piece of session state untouched whenever the message is
missing, empty or whitespace-only; the second src/app.py handler does so
only when the `message` key is missing (or the body is empty/absent) — a
present-but-empty message is processed as a normal message there. -/
theorem claim_C9_empty_message_rejection :
    (∀ (gen : String → List String → String) (k : Nat) (data : ChatReq)
       (mm : MemoryManager) (cs : List (String × List String)) (now : Int),
      pyStrip (data.message.getD "") = "" →
      chatEnhanced gen k (some data) mm cs now = (.err 400 "Empty message", mm, cs)) ∧
    (∀ (k : Nat) (u : String) (data : ChatReq) (ud : Option UserData)
       (cs : List (String × List Exchange)) (now : Int),
      data.message = none →
      chatSecond k u (some data) ud cs now = (.err 400 "Message is required", ud, cs)) ∧
    (∀ (k : Nat) (u : String) (ud : Option UserData)
       (cs : List (String × List Exchange)) (now : Int),
      chatSecond k u none ud cs now = (.err 400 "Message is required", ud, cs)) ∧
    (∀ (k : Nat) (u : String) (data : ChatReq)
       (cs : List (String × List Exchange)) (now : Int),
      pyStrip (data.message.getD "") = "" →
      chatBackendOnly k u (some data) cs now = (.err 400 "Empty message", cs)) := by
  refine ⟨?_, ?_, ?_, ?_⟩
  · intro gen k data mm cs now h
    simp [chatEnhanced, h]
  · intro k u data ud cs now h
    simp [chatSecond, h]
  · intro k u ud cs now
    rfl
  · intro k u data cs now h
    simp [chatBackendOnly, h]

/-- C10: when the request body omits `session_id`, the enhanced src/app.py
handler substitutes the fixed string "default" (so every sessionless
request acts on that one shared session: the handler behaves exactly as if
`session_id` were "default", and any 200 response reports that id), while
the second src/app.py handler and the src/app_backend_only.py handler
substitute the freshly generated UUID of that request. -/
theorem claim_C10_sessionless_default :
    (∀ (gen : String → List String → String) (k : Nat) (msg : Option String)
       (mm : MemoryManager) (cs : List (String × List String)) (now : Int),
      chatEnhanced gen k (some ⟨msg, none⟩) mm cs now =
        chatEnhanced gen k (some ⟨msg, some "default"⟩) mm cs now) ∧
    (∀ (gen : String → List String → String) (k : Nat) (data : ChatReq)
       (mm : MemoryManager) (cs : List (String × List String)) (now : Int)
       (b : ChatOk) (st : MemoryManager × List (String × List String)),
      data.sessionId = none →
      chatEnhanced gen k (some data) mm cs now = (.ok b, st) →
      b.sessionId = "default") ∧
    (∀ (k : Nat) (u : String) (msg : Option String) (ud : Option UserData)
       (cs : List (String × List Exchange)) (now : Int),
      chatSecond k u (some ⟨msg, none⟩) ud cs now =
        chatSecond k u (some ⟨msg, some u⟩) ud cs now) ∧
    (∀ (k : Nat) (u : String) (data : ChatReq) (ud : Option UserData)
       (cs : List (String × List Exchange)) (now : Int)
       (b : ChatOk) (st : Option UserData × List (String × List Exchange)),
      data.sessionId = none →
      chatSecond k u (some data) ud cs now = (.ok b, st) →
      b.sessionId = u) ∧
    (∀ (k : Nat) (u : String) (msg : Option String)
       (cs : List (String × List Exchange)) (now : Int),
      chatBackendOnly k u (some ⟨msg, none⟩) cs now =
        chatBackendOnly k u (some ⟨msg, some u⟩) cs now) ∧
    (∀ (k : Nat) (u : String) (data : ChatReq)
       (cs : List (String × List Exchange)) (now : Int)
       (b : ChatOk) (st : List (String × List Exchange)),
      data.sessionId = none →
      chatBackendOnly k u (some data) cs now = (.ok b, st) →
      b.sessionId = u) := by
  refine ⟨fun gen k msg mm cs now => rfl, ?_, fun k u msg ud cs now => rfl, ?_,
          fun k u msg cs now => rfl, ?_⟩
  · intro gen k data mm cs now b st hsid heq
    rw [chatEnhanced] at heq
    simp only [hsid, Option.getD_none] at heq
    repeat' split at heq
    all_goals first
      | (cases heq; rfl)
      | simp at heq
  · intro k u data ud cs now b st hsid heq
    rw [chatSecond] at heq
    simp only [hsid, Option.getD_none] at heq
    repeat' split at heq
    all_goals first
      | (cases heq; rfl)
      | simp at heq
  · intro k u data cs now b st hsid heq
    rw [chatBackendOnly] at heq
    simp only [hsid, Option.getD_none] at heq
    repeat' split at heq
    all_goals first
      | (cases heq; rfl)
      | simp at heq


/-- C2 counterexample: a direct `get_session` on a session whose last-active
timestamp (0) is older than the timeout (86400 s; read at t = 200000)
refreshes it and serves its old one-entry history — it is NOT treated as
absent and no fresh empty session is returned. -/
theorem claim_C2_counterexample :
    ((getSession ⟨[("old", ⟨[⟨0, "hi", "hello", none⟩], 0, 0, 1, [], [], []⟩)],
        1000, 86400⟩ "old" 200000).1).map SessionData.history
      = some [⟨0, "hi", "hello", none⟩] ∧
    (86400 : Int) < 200000 - 0 ∧
    some [(⟨0, "hi", "hello", none⟩ : Exchange)] ≠ some ([] : List Exchange) := by
  exact ⟨rfl, by decide, by simp⟩

/-- C2 (amended): for a stored session `sid` whose last-active timestamp is
older than the timeout (with unique keys, a 1-hour-or-longer timeout, and
the store within its ceiling): a direct `get_session` on `sid` refreshes
the timestamp and returns the OLD session (history intact); the cleanup
sweep removes `sid`, after which `get_session` recreates it fresh and
empty; and the expired session contributes nothing to
`active_sessions_last_hour`. -/
theorem claim_C2_expiry_semantics :
∀ (m : MemoryManager) (sid : String) (sd : SessionData) (t : Int),
      (m.sessions.map Prod.fst).Nodup →
      alookup m.sessions sid = some sd →
      m.sessionTimeout < t - sd.lastActive →
      3600 ≤ m.sessionTimeout →
      m.sessions.length ≤ m.maxSessions →
      (getSession m sid t).1 = some { sd with lastActive := t } ∧
      alookup (cleanupOldSessions m t).sessions sid = none ∧
      (getSession (cleanupOldSessions m t) sid t).1 = some (freshSession t) ∧
      (getSessionStats m t).2 =
        (getSessionStats
          ⟨m.sessions.filter (fun e => decide (e.1 ≠ sid)),
           m.maxSessions, m.sessionTimeout⟩ t).2 := by
  intro m sid sd t hnd hlook hexp hhour hlenle
  have hto : (0 : Int) ≤ m.sessionTimeout := by omega
  have hpfalse : (fun e : String × SessionData =>
      decide (t - e.2.lastActive ≤ m.sessionTimeout)) (sid, sd) = false := by
    simp only [decide_eq_false_iff_not]
    omega
  have hclean_sessions : (cleanupOldSessions m t).sessions
      = m.sessions.filter (fun e => decide (t - e.2.lastActive ≤ m.sessionTimeout)) := by
    unfold cleanupOldSessions
    dsimp only
    rw [if_neg (by
      have h1 := List.length_filter_le
        (fun e : String × SessionData => decide (t - e.2.lastActive ≤ m.sessionTimeout))
        m.sessions
      omega)]
  have hcleanNone : alookup (cleanupOldSessions m t).sessions sid = none := by
    rw [hclean_sessions]
    exact alookup_filter_none _ hnd hlook hpfalse
  have hcllt : (cleanupOldSessions m t).sessions.length < m.sessions.length := by
    rw [hclean_sessions]
    exact length_filter_lt_of_mem_false m.sessions (sid, sd)
      (fun e => decide (t - e.2.lastActive ≤ m.sessionTimeout))
      (alookup_mem hlook) hpfalse
  have hclmax : (cleanupOldSessions m t).maxSessions = m.maxSessions := by
    unfold cleanupOldSessions
    dsimp only
    split <;> rfl
  have hcltmo : (cleanupOldSessions m t).sessionTimeout = m.sessionTimeout := by
    unfold cleanupOldSessions
    dsimp only
    split <;> rfl
  refine ⟨getSession_of_present m sid sd t hnd hlook hlenle hto, hcleanNone, ?_, ?_⟩
  · apply getSession_of_absent
    · exact hcleanNone
    · intro e he
      rw [hclean_sessions] at he
      rw [hcltmo]
      simpa using (List.mem_filter.mp he).2
    · rw [hclmax]
      omega
    · rw [hcltmo]
      exact hto
  · unfold getSessionStats
    dsimp only
    congr 1
    apply filter_skip_key
    intro e he hkey
    have heq := alookup_unique hnd hlook e he hkey
    rw [heq]
    simp only [decide_eq_false_iff_not]
    omega

/-- C2 witness: the amended expiry semantics at a concrete expired store. -/
theorem claim_C2_expiry_witness :
    ((getSession ⟨[("old", ⟨[⟨0, "hi", "hello", none⟩], 0, 0, 1, [], [], []⟩)],
        1000, 86400⟩ "old" 200000).1)
      = some { (⟨[⟨0, "hi", "hello", none⟩], 0, 0, 1, [], [], []⟩ : SessionData) with
               lastActive := 200000 } ∧
    alookup (cleanupOldSessions
        ⟨[("old", ⟨[⟨0, "hi", "hello", none⟩], 0, 0, 1, [], [], []⟩)],
         1000, 86400⟩ 200000).sessions "old" = none ∧
    (getSession (cleanupOldSessions
        ⟨[("old", ⟨[⟨0, "hi", "hello", none⟩], 0, 0, 1, [], [], []⟩)],
         1000, 86400⟩ 200000) "old" 200000).1 = some (freshSession 200000) ∧
    (getSessionStats
        ⟨[("old", ⟨[⟨0, "hi", "hello", none⟩], 0, 0, 1, [], [], []⟩)],
         1000, 86400⟩ 200000).2 =
      (getSessionStats
        ⟨(([("old", ⟨[⟨0, "hi", "hello", none⟩], 0, 0, 1, [], [], []⟩)])
            : List (String × SessionData)).filter (fun e => decide (e.1 ≠ "old")),
         1000, 86400⟩ 200000).2 :=
  claim_C2_expiry_semantics
    ⟨[("old", ⟨[⟨0, "hi", "hello", none⟩], 0, 0, 1, [], [], []⟩)], 1000, 86400⟩
    "old" ⟨[⟨0, "hi", "hello", none⟩], 0, 0, 1, [], [], []⟩ 200000
    (by simp) rfl (by decide) (by decide) (by decide)

/-- C3: after every completed write (`get_session` or `add_message`) the
stored session count never exceeds `max_sessions`; and when a new session
is created while the (unexpired, duplicate-free) population sits exactly
at the ceiling, exactly one session — one with the oldest last-active
timestamp — is evicted, leaving the count equal to the maximum. -/
theorem claim_C3_session_ceiling :
    (∀ (m : MemoryManager) (sid u b : String) (s : Option String) (t : Int),
      (getSession m sid t).2.sessions.length ≤ m.maxSessions ∧
      (addMessage m sid u b s t).sessions.length ≤ m.maxSessions) ∧
    (∀ (m : MemoryManager) (sid : String) (t : Int),
      (m.sessions.map Prod.fst).Nodup →
      m.sessions.length = m.maxSessions →
      1 ≤ m.maxSessions →
      alookup m.sessions sid = none →
      0 ≤ m.sessionTimeout →
      (∀ e ∈ m.sessions, t - e.2.lastActive ≤ m.sessionTimeout ∧ e.2.lastActive < t) →
      ∃ ev ∈ m.sessions,
        (∀ e ∈ m.sessions, ev.2.lastActive ≤ e.2.lastActive) ∧
        (getSession m sid t).2.sessions
          = m.sessions.filter (fun e => decide (e.1 ≠ ev.1)) ++ [(sid, freshSession t)] ∧
        (getSession m sid t).2.sessions.length = m.maxSessions) := by
  constructor
  · intro m sid u b s t
    constructor
    · exact getSession_length_le m sid t
    · unfold addMessage
      dsimp only
      rw [length_aupdate]
      exact getSession_length_le m sid t
  · exact getSession_evicts_oldest

end Mindful
